import Mathlib

/-!
Shallow embedding of the PV Calculator API (src/main.py) over exact real
arithmetic.  The wall-clock month read by `calculate_psh` is made an explicit
parameter `current_month : ℕ`; Python float arithmetic is modelled by ℝ and
Python `int()` (truncation toward zero) by `truncInt`.
-/

namespace PV

/-- PVRequest: the input record (pydantic model in src/main.py, lines 18-23). -/
structure PVRequest where
  latitude : ℝ
  longitude : ℝ
  system_capacity : ℝ
  panel_efficiency : ℝ := 0.18
  system_losses : ℝ := 0.14

/-- PVResponse: the output record (src/main.py, lines 25-34). -/
structure PVResponse where
  annual_energy : ℝ
  monthly_energy : List ℝ
  capacity_factor : ℝ
  psh_annual : ℝ
  roi_period : ℝ
  panel_count : ℤ
  required_area : ℝ
  system_cost : ℝ
  annual_savings : ℝ

/-- Python `int()` applied to a real: truncation toward zero. -/
noncomputable def truncInt (x : ℝ) : ℤ := if 0 ≤ x then ⌊x⌋ else ⌈x⌉

/-- calculate_psh (src/main.py, lines 77-93): peak sun hours from latitude and
the current calendar month; `lon` is accepted but unused. -/
noncomputable def calculate_psh (lat lon : ℝ) (current_month : ℕ) : ℝ :=
  let base_psh : ℝ := 4.5
  let lat_effect : ℝ := |lat| * 0.02
  let seasonal_factor : ℝ :=
    1 + 0.1 * Real.sin (2 * Real.pi * ((current_month : ℝ) - 6) / 12)
  let psh := base_psh - lat_effect
  let psh := psh * seasonal_factor
  max 2.0 (min 6.0 psh)

/-- generate_monthly_energy (src/main.py, lines 95-113): hemisphere-dependent
seasonal weight table, normalized to sum 1, scaled by annual energy. -/
noncomputable def generate_monthly_energy (annual_energy lat : ℝ) : List ℝ :=
  let base_pattern : List ℝ :=
    if lat ≥ 0 then
      [0.06, 0.07, 0.08, 0.09, 0.10, 0.12,
       0.12, 0.11, 0.10, 0.09, 0.08, 0.07]
    else
      [0.12, 0.11, 0.10, 0.09, 0.08, 0.07,
       0.07, 0.08, 0.09, 0.10, 0.11, 0.12]
  let total := base_pattern.sum
  let normalized_pattern := base_pattern.map (fun factor => factor / total)
  normalized_pattern.map (fun factor => annual_energy * factor)

/-- calculate_pv (src/main.py, lines 41-72): the body of the /calculate
endpoint's try-block, with the wall-clock month as explicit parameter. The
capacity_factor division is total real division here; `calculate_pv_checked`
below models the ZeroDivisionError the Python runtime raises there when
system_capacity = 0. -/
noncomputable def calculate_pv (request : PVRequest) (current_month : ℕ) :
    PVResponse :=
  let psh_annual := calculate_psh request.latitude request.longitude current_month
  let annual_energy :=
    request.system_capacity * psh_annual * 365 * (1 - request.system_losses)
  let capacity_factor := (annual_energy / (request.system_capacity * 8760)) * 100
  let monthly_energy := generate_monthly_energy annual_energy request.latitude
  let system_cost := request.system_capacity * 18000000
  let annual_savings := annual_energy * 1500
  let roi_period := if annual_savings > 0 then system_cost / annual_savings else 0
  let panel_count := truncInt ((request.system_capacity * 1000) / 450)
  let required_area := request.system_capacity * 7
  { annual_energy := annual_energy
    monthly_energy := monthly_energy
    capacity_factor := capacity_factor
    psh_annual := psh_annual
    roi_period := roi_period
    panel_count := panel_count
    required_area := required_area
    system_cost := system_cost
    annual_savings := annual_savings }

/-- The PSH formula exactly as the spec words it (one closed-form expression,
clamped to the interval): used to compare against `calculate_psh`. -/
noncomputable def calculate_psh_specFormula (lat : ℝ) (current_month : ℕ) : ℝ :=
  max 2.0 (min 6.0
    ((4.5 - |lat| * 0.02) *
      (1 + 0.1 * Real.sin (2 * Real.pi * ((current_month : ℝ) - 6) / 12))))

/-- The message Python attaches to a ZeroDivisionError on float division. -/
def zeroDivisionMessage : String := "float division by zero"

/-- Python float division as the runtime evaluates it: raises
ZeroDivisionError (here: an error value carrying its message) when the
denominator is zero. -/
noncomputable def pydiv (x y : ℝ) : Except String ℝ :=
  if y = 0 then Except.error zeroDivisionMessage else Except.ok (x / y)

/-- The try-block of the /calculate endpoint (src/main.py, lines 42-72) with
its one fallible operation — the unguarded capacity_factor division at line 48,
which raises ZeroDivisionError when system_capacity = 0 — evaluated as checked
division; every other operation of the block is total (the roi division is
guarded, all remaining denominators are nonzero constants). -/
noncomputable def calculate_pv_checked (request : PVRequest) (current_month : ℕ) :
    Except String PVResponse :=
  let psh_annual := calculate_psh request.latitude request.longitude current_month
  let annual_energy :=
    request.system_capacity * psh_annual * 365 * (1 - request.system_losses)
  match pydiv annual_energy (request.system_capacity * 8760) with
  | Except.error msg => Except.error msg
  | Except.ok q =>
      let capacity_factor := q * 100
      let monthly_energy := generate_monthly_energy annual_energy request.latitude
      let system_cost := request.system_capacity * 18000000
      let annual_savings := annual_energy * 1500
      let roi_period :=
        if annual_savings > 0 then system_cost / annual_savings else 0
      let panel_count := truncInt ((request.system_capacity * 1000) / 450)
      let required_area := request.system_capacity * 7
      Except.ok
        { annual_energy := annual_energy
          monthly_energy := monthly_energy
          capacity_factor := capacity_factor
          psh_annual := psh_annual
          roi_period := roi_period
          panel_count := panel_count
          required_area := required_area
          system_cost := system_cost
          annual_savings := annual_savings }

/-- The payload the /calculate endpoint returns: the full metrics record on
success, or — from the catch-all handler at src/main.py lines 74-75 — a
failure carrying only the error message string (no error code, no metric
fields). -/
inductive EndpointPayload where
  | success : PVResponse → EndpointPayload
  | failure : String → EndpointPayload

/-- The /calculate endpoint: the try-block result, with the catch-all handler
converting a raised exception into the message-only failure payload. -/
noncomputable def calculate_endpoint (request : PVRequest) (current_month : ℕ) :
    EndpointPayload :=
  match calculate_pv_checked request current_month with
  | Except.ok resp => EndpointPayload.success resp
  | Except.error msg => EndpointPayload.failure msg

/-- A batch of requests served in order: the server is stateless, so each
request is handled by the same pure endpoint function. -/
noncomputable def serve (batch : List (PVRequest × ℕ)) : List EndpointPayload :=
  batch.map (fun p => calculate_endpoint p.1 p.2)

/-- C1: for every request and month, the returned annual_energy equals
system_capacity × psh_annual × 365 × (1 − system_losses), the returned
capacity_factor equals annual_energy / (system_capacity × 8760) × 100, and
the psh_annual field is the value produced by the PSH estimator for the call. -/
theorem C1_energy_and_capacity_factor (request : PVRequest) (m : ℕ) :
    (calculate_pv request m).annual_energy =
      request.system_capacity * (calculate_pv request m).psh_annual * 365 *
        (1 - request.system_losses) ∧
    (calculate_pv request m).capacity_factor =
      (calculate_pv request m).annual_energy /
        (request.system_capacity * 8760) * 100 ∧
    (calculate_pv request m).psh_annual =
      calculate_psh request.latitude request.longitude m := by
  refine ⟨rfl, rfl, rfl⟩

/-- C2: the PSH estimator computes exactly
(4.5 − |lat|·0.02) · (1 + 0.1·sin(2π(m − 6)/12)) clamped to [2.0, 6.0], i.e. it
coincides with the spec's closed-form formula for every latitude, longitude and
month. -/
theorem C2_psh_formula (lat lon : ℝ) (m : ℕ) :
    calculate_psh lat lon m = calculate_psh_specFormula lat m := rfl

/-- C6: for every latitude in [-90, 90] and every calendar month 1-12, the PSH
value returned by the estimator lies in [2.0, 6.0] (the final clamp enforces
the bounds). -/
theorem C6_psh_bounds (lat lon : ℝ) (m : ℕ)
    (h1 : -90 ≤ lat) (h2 : lat ≤ 90) (hm1 : 1 ≤ m) (hm2 : m ≤ 12) :
    2.0 ≤ calculate_psh lat lon m ∧ calculate_psh lat lon m ≤ 6.0 := by
  unfold calculate_psh
  refine ⟨le_max_left _ _, max_le (by norm_num) (min_le_left _ _)⟩

/-- Witness for C6 at latitude 0, month 6. -/
theorem C6_psh_bounds_witness :
    2.0 ≤ calculate_psh 0 0 6 ∧ calculate_psh 0 0 6 ≤ 6.0 :=
  C6_psh_bounds 0 0 6 (by norm_num) (by norm_num) (by norm_num) (by norm_num)

/-- C7: for every request with positive system_capacity, panel_count equals
floor(system_capacity × 1000 / 450) (Python int() truncation agrees with floor
on the positive argument). -/
theorem C7_panel_count (request : PVRequest) (m : ℕ)
    (h : 0 < request.system_capacity) :
    (calculate_pv request m).panel_count =
      ⌊request.system_capacity * 1000 / 450⌋ := by
  show truncInt (request.system_capacity * 1000 / 450) = _
  unfold truncInt
  rw [if_pos (by positivity)]

/-- Witness for C7: system_capacity = 5.0 yields panel_count = 11. -/
theorem C7_panel_count_witness :
    (calculate_pv ⟨-6.2, 106.8, 5, 0.18, 0.14⟩ 6).panel_count = 11 := by
  rw [C7_panel_count ⟨-6.2, 106.8, 5, 0.18, 0.14⟩ 6 (by norm_num)]
  rw [show ((⟨-6.2, 106.8, 5, 0.18, 0.14⟩ : PVRequest).system_capacity) = 5 from rfl]
  rw [Int.floor_eq_iff]
  norm_num

/-- Northern-hemisphere closed form of the monthly list (weights over the
normalizing total 1.09). -/
lemma generate_monthly_energy_north (a lat : ℝ) (h : 0 ≤ lat) :
    generate_monthly_energy a lat =
      [a * (6 / 109), a * (7 / 109), a * (8 / 109), a * (9 / 109),
       a * (10 / 109), a * (12 / 109), a * (12 / 109), a * (11 / 109),
       a * (10 / 109), a * (9 / 109), a * (8 / 109), a * (7 / 109)] := by
  unfold generate_monthly_energy
  rw [if_pos h]
  norm_num

/-- Southern-hemisphere closed form of the monthly list (weights over the
normalizing total 1.14). -/
lemma generate_monthly_energy_south (a lat : ℝ) (h : ¬ lat ≥ 0) :
    generate_monthly_energy a lat =
      [a * (2 / 19), a * (11 / 114), a * (5 / 57), a * (3 / 38),
       a * (4 / 57), a * (7 / 114), a * (7 / 114), a * (4 / 57),
       a * (3 / 38), a * (5 / 57), a * (11 / 114), a * (2 / 19)] := by
  unfold generate_monthly_energy
  rw [if_neg h]
  norm_num

/-- C3: for every annual_energy ≥ 0 and every latitude, the monthly
distribution is a 12-element calendar-order list whose sum equals
annual_energy exactly (the weight table is normalized before scaling). -/
theorem C3_monthly_sum (a lat : ℝ) (h : 0 ≤ a) :
    (generate_monthly_energy a lat).length = 12 ∧
    (generate_monthly_energy a lat).sum = a := by
  by_cases hl : 0 ≤ lat
  · rw [generate_monthly_energy_north a lat hl]
    constructor
    · rfl
    · simp only [List.sum_cons, List.sum_nil]
      ring
  · rw [generate_monthly_energy_south a lat (by simpa using hl)]
    constructor
    · rfl
    · simp only [List.sum_cons, List.sum_nil]
      ring

/-- Witness for C3 at annual_energy = 100, latitude = 1. -/
theorem C3_monthly_sum_witness :
    (generate_monthly_energy 100 1).length = 12 ∧
    (generate_monthly_energy 100 1).sum = 100 :=
  C3_monthly_sum 100 1 (by norm_num)

/-- C5: for every annual_energy > 0, the largest entry of the monthly list is
attained at index 5 (= index 6) when latitude ≥ 0 and at index 0 (= index 11)
when latitude < 0, every other index being strictly smaller — so the peak
occurs exactly at June/July, resp. December/January. -/
theorem C5_peak_month (a lat : ℝ) (ha : 0 < a) :
    (0 ≤ lat →
      (∀ i, i < 12 →
        (generate_monthly_energy a lat).getD i 0 ≤
          (generate_monthly_energy a lat).getD 5 0) ∧
      (∀ i, i < 12 → i ≠ 5 → i ≠ 6 →
        (generate_monthly_energy a lat).getD i 0 <
          (generate_monthly_energy a lat).getD 5 0)) ∧
    (lat < 0 →
      (∀ i, i < 12 →
        (generate_monthly_energy a lat).getD i 0 ≤
          (generate_monthly_energy a lat).getD 0 0) ∧
      (∀ i, i < 12 → i ≠ 0 → i ≠ 11 →
        (generate_monthly_energy a lat).getD i 0 <
          (generate_monthly_energy a lat).getD 0 0)) := by
  constructor
  · intro hl
    rw [generate_monthly_energy_north a lat hl]
    constructor
    · intro i hi
      interval_cases i <;>
        simp only [List.getD_cons_zero, List.getD_cons_succ] <;>
        exact mul_le_mul_of_nonneg_left (by norm_num) ha.le
    · intro i hi h5 h6
      interval_cases i <;>
        first
        | exact absurd rfl h5
        | exact absurd rfl h6
        | (simp only [List.getD_cons_zero, List.getD_cons_succ];
           exact mul_lt_mul_of_pos_left (by norm_num) ha)
  · intro hl
    rw [generate_monthly_energy_south a lat (by simpa using hl.not_le)]
    constructor
    · intro i hi
      interval_cases i <;>
        simp only [List.getD_cons_zero, List.getD_cons_succ] <;>
        exact mul_le_mul_of_nonneg_left (by norm_num) ha.le
    · intro i hi h0 h11
      interval_cases i <;>
        first
        | exact absurd rfl h0
        | exact absurd rfl h11
        | (simp only [List.getD_cons_zero, List.getD_cons_succ];
           exact mul_lt_mul_of_pos_left (by norm_num) ha)

/-- Witness for C5 at annual_energy = 100, latitude = 45. -/
theorem C5_peak_month_witness :
    ((0:ℝ) ≤ 45 →
      (∀ i, i < 12 →
        (generate_monthly_energy 100 45).getD i 0 ≤
          (generate_monthly_energy 100 45).getD 5 0) ∧
      (∀ i, i < 12 → i ≠ 5 → i ≠ 6 →
        (generate_monthly_energy 100 45).getD i 0 <
          (generate_monthly_energy 100 45).getD 5 0)) ∧
    ((45:ℝ) < 0 →
      (∀ i, i < 12 →
        (generate_monthly_energy 100 45).getD i 0 ≤
          (generate_monthly_energy 100 45).getD 0 0) ∧
      (∀ i, i < 12 → i ≠ 0 → i ≠ 11 →
        (generate_monthly_energy 100 45).getD i 0 <
          (generate_monthly_energy 100 45).getD 0 0)) :=
  C5_peak_month 100 45 (by norm_num)

/-- C9: two requests agreeing on latitude, system_capacity and system_losses
(but possibly differing in longitude and panel_efficiency), evaluated in the
same calendar month, produce identical responses in every field. -/
theorem C9_longitude_efficiency_irrelevant (r1 r2 : PVRequest) (m : ℕ)
    (hlat : r1.latitude = r2.latitude)
    (hcap : r1.system_capacity = r2.system_capacity)
    (hloss : r1.system_losses = r2.system_losses) :
    calculate_pv r1 m = calculate_pv r2 m := by
  unfold calculate_pv calculate_psh
  rw [hlat, hcap, hloss]

/-- Witness for C9: two concrete requests differing only in longitude and
panel_efficiency give equal responses. -/
theorem C9_longitude_efficiency_irrelevant_witness :
    calculate_pv ⟨-6.2, 106.8, 5, 0.18, 0.14⟩ 6 =
      calculate_pv ⟨-6.2, 50, 5, 0.33, 0.14⟩ 6 :=
  C9_longitude_efficiency_irrelevant
    ⟨-6.2, 106.8, 5, 0.18, 0.14⟩ ⟨-6.2, 50, 5, 0.33, 0.14⟩ 6 rfl rfl rfl

/-- The clamp makes the PSH estimate at least 2 for every input. -/
lemma two_le_calculate_psh (lat lon : ℝ) (m : ℕ) :
    (2:ℝ) ≤ calculate_psh lat lon m := by
  unfold calculate_psh
  exact le_trans (by norm_num) (le_max_left _ _)

/-- C10: for every request in the declared input domain (system_capacity > 0,
system_losses ∈ [0,1)), annual_savings is strictly positive (psh_annual ≥ 2
after the clamp), so the else-branch of the roi_period guard is unreachable:
roi_period = system_cost / annual_savings and it is strictly positive. -/
theorem C10_roi_guard_unreachable (request : PVRequest) (m : ℕ)
    (hcap : 0 < request.system_capacity)
    (hl0 : 0 ≤ request.system_losses) (hl1 : request.system_losses < 1) :
    0 < (calculate_pv request m).annual_savings ∧
    (calculate_pv request m).roi_period =
      (calculate_pv request m).system_cost /
        (calculate_pv request m).annual_savings ∧
    0 < (calculate_pv request m).roi_period := by
  have hpsh : (0:ℝ) < calculate_psh request.latitude request.longitude m :=
    lt_of_lt_of_le (by norm_num) (two_le_calculate_psh _ _ _)
  have hs : 0 < (calculate_pv request m).annual_savings := by
    show 0 < request.system_capacity *
      calculate_psh request.latitude request.longitude m * 365 *
        (1 - request.system_losses) * 1500
    have hloss : (0:ℝ) < 1 - request.system_losses := by linarith
    exact mul_pos (mul_pos (mul_pos (mul_pos hcap hpsh) (by norm_num)) hloss)
      (by norm_num)
  have hroi : (calculate_pv request m).roi_period =
      (calculate_pv request m).system_cost /
        (calculate_pv request m).annual_savings := by
    show (if (calculate_pv request m).annual_savings > 0 then
      (calculate_pv request m).system_cost /
        (calculate_pv request m).annual_savings else 0) = _
    rw [if_pos hs]
  have hcost : 0 < (calculate_pv request m).system_cost := by
    show 0 < request.system_capacity * 18000000
    exact mul_pos hcap (by norm_num)
  refine ⟨hs, hroi, ?_⟩
  rw [hroi]
  exact div_pos hcost hs

/-- Witness for C10 at a concrete in-domain request (capacity 1, losses 0),
month 6. -/
theorem C10_roi_guard_unreachable_witness :
    0 < (calculate_pv ⟨0, 0, 1, 0.18, 0⟩ 6).annual_savings ∧
    (calculate_pv ⟨0, 0, 1, 0.18, 0⟩ 6).roi_period =
      (calculate_pv ⟨0, 0, 1, 0.18, 0⟩ 6).system_cost /
        (calculate_pv ⟨0, 0, 1, 0.18, 0⟩ 6).annual_savings ∧
    0 < (calculate_pv ⟨0, 0, 1, 0.18, 0⟩ 6).roi_period :=
  C10_roi_guard_unreachable ⟨0, 0, 1, 0.18, 0⟩ 6
    (by norm_num) (by norm_num) (by norm_num)

/-- At latitude 0 in month 6 the seasonal factor is 1 and the PSH estimate is
exactly 4.5. -/
lemma calculate_psh_lat_zero_month_six : calculate_psh 0 0 6 = 4.5 := by
  unfold calculate_psh
  norm_num [Real.sin_zero, min_def, max_def]

/-- C4 counterexample: the request (0, 0, capacity -1, 0.18, losses 0) in
month 6 has annual_savings = -2463750 ≠ 0 while roi_period = 0, and
roi_period differs from system_cost / annual_savings; so roi_period = 0 does
not hold exactly when annual_savings = 0, refuting the claim as stated. -/
theorem C4_counterexample :
    (calculate_pv ⟨0, 0, -1, 0.18, 0⟩ 6).annual_savings ≠ 0 ∧
    (calculate_pv ⟨0, 0, -1, 0.18, 0⟩ 6).roi_period = 0 ∧
    (calculate_pv ⟨0, 0, -1, 0.18, 0⟩ 6).roi_period ≠
      (calculate_pv ⟨0, 0, -1, 0.18, 0⟩ 6).system_cost /
        (calculate_pv ⟨0, 0, -1, 0.18, 0⟩ 6).annual_savings := by
  have hsav : (calculate_pv ⟨0, 0, -1, 0.18, 0⟩ 6).annual_savings = -2463750 := by
    show (-1 : ℝ) * calculate_psh 0 0 6 * 365 * (1 - 0) * 1500 = -2463750
    rw [calculate_psh_lat_zero_month_six]
    norm_num
  have hneg : ¬ ((calculate_pv ⟨0, 0, -1, 0.18, 0⟩ 6).annual_savings > 0) := by
    rw [hsav]; norm_num
  have hroi : (calculate_pv ⟨0, 0, -1, 0.18, 0⟩ 6).roi_period = 0 := by
    show (if (calculate_pv ⟨0, 0, -1, 0.18, 0⟩ 6).annual_savings > 0 then
      (calculate_pv ⟨0, 0, -1, 0.18, 0⟩ 6).system_cost /
        (calculate_pv ⟨0, 0, -1, 0.18, 0⟩ 6).annual_savings else 0) = 0
    rw [if_neg hneg]
  have hcost : (calculate_pv ⟨0, 0, -1, 0.18, 0⟩ 6).system_cost = -18000000 := by
    show (-1 : ℝ) * 18000000 = -18000000
    norm_num
  refine ⟨by rw [hsav]; norm_num, hroi, ?_⟩
  rw [hroi, hcost, hsav]
  norm_num

/-- C4 amended: for every request and month, roi_period = 0 exactly when
annual_savings ≤ 0, and whenever annual_savings > 0 the explicit guard takes
the division branch: roi_period = system_cost / annual_savings. -/
theorem C4_roi_guard (request : PVRequest) (m : ℕ) :
    ((calculate_pv request m).roi_period = 0 ↔
      (calculate_pv request m).annual_savings ≤ 0) ∧
    (0 < (calculate_pv request m).annual_savings →
      (calculate_pv request m).roi_period =
        (calculate_pv request m).system_cost /
          (calculate_pv request m).annual_savings) := by
  by_cases hs : (calculate_pv request m).annual_savings > 0
  · have hroi : (calculate_pv request m).roi_period =
        (calculate_pv request m).system_cost /
          (calculate_pv request m).annual_savings := by
      show (if (calculate_pv request m).annual_savings > 0 then
        (calculate_pv request m).system_cost /
          (calculate_pv request m).annual_savings else 0) = _
      rw [if_pos hs]
    refine ⟨⟨fun h0 => ?_, fun hle => absurd hle (not_le.mpr hs)⟩, fun _ => hroi⟩
    rw [hroi] at h0
    rcases div_eq_zero_iff.mp h0 with hc | hsz
    · have hcap0 : request.system_capacity = 0 := by
        have hc18 : request.system_capacity * 18000000 = 0 := hc
        rcases mul_eq_zero.mp hc18 with h | h
        · exact h
        · exact absurd h (by norm_num)
      have hsz : (calculate_pv request m).annual_savings = 0 := by
        show request.system_capacity *
          calculate_psh request.latitude request.longitude m * 365 *
            (1 - request.system_losses) * 1500 = 0
        rw [hcap0]; ring
      exact le_of_eq hsz
    · exact le_of_eq hsz
  · have hroi0 : (calculate_pv request m).roi_period = 0 := by
      show (if (calculate_pv request m).annual_savings > 0 then
        (calculate_pv request m).system_cost /
          (calculate_pv request m).annual_savings else 0) = 0
      rw [if_neg hs]
    exact ⟨⟨fun _ => le_of_not_lt hs, fun _ => hroi0⟩, fun hpos => absurd hpos hs⟩

/-- Checked division by a zero denominator raises. -/
lemma pydiv_zero (x : ℝ) : pydiv x 0 = Except.error zeroDivisionMessage := by
  unfold pydiv
  rw [if_pos rfl]

/-- C8: if an exception is raised during the computation of a /calculate
request (the checked try-block evaluates to an error), the endpoint returns
the failure payload carrying only that error message string — never a success
payload, so no error code and no partial metrics — and the failure is scoped
to that one request: in any batch containing it, every other request receives
exactly the payload it would receive served alone. -/
theorem C8_exception_error_payload (request : PVRequest) (m : ℕ) (msg : String)
    (h : calculate_pv_checked request m = Except.error msg) :
    calculate_endpoint request m = EndpointPayload.failure msg ∧
    (∀ resp, calculate_endpoint request m ≠ EndpointPayload.success resp) ∧
    (∀ before after : List (PVRequest × ℕ),
      serve (before ++ (request, m) :: after) =
        serve before ++ EndpointPayload.failure msg :: serve after) := by
  have hend : calculate_endpoint request m = EndpointPayload.failure msg := by
    unfold calculate_endpoint
    rw [h]
  refine ⟨hend, ?_, ?_⟩
  · intro resp hcontra
    rw [hend] at hcontra
    exact EndpointPayload.noConfusion hcontra
  · intro before after
    unfold serve
    simp only [List.map_append, List.map_cons]
    rw [hend]

/-- Witness for C8: the schema-accepted request with system_capacity = 0 makes
the capacity_factor denominator zero, the try-block raises, and the endpoint
returns the message-only failure payload without affecting any other request
in a batch. -/
theorem C8_exception_error_payload_witness :
    calculate_endpoint ⟨0, 0, 0, 0.18, 0.14⟩ 6 =
      EndpointPayload.failure zeroDivisionMessage ∧
    (∀ resp, calculate_endpoint ⟨0, 0, 0, 0.18, 0.14⟩ 6 ≠
      EndpointPayload.success resp) ∧
    (∀ before after : List (PVRequest × ℕ),
      serve (before ++ ((⟨0, 0, 0, 0.18, 0.14⟩ : PVRequest), 6) :: after) =
        serve before ++
          EndpointPayload.failure zeroDivisionMessage :: serve after) :=
  C8_exception_error_payload ⟨0, 0, 0, 0.18, 0.14⟩ 6 zeroDivisionMessage (by
    have h0 : ((⟨0, 0, 0, 0.18, 0.14⟩ : PVRequest).system_capacity * 8760 : ℝ) = 0 := by
      show (0:ℝ) * 8760 = 0
      norm_num
    unfold calculate_pv_checked
    rw [h0]
    simp only [pydiv_zero])

end PV
